import Mathlib

/-!
Verification of the printer control panel (bambuddy frontend).

The development shallowly embeds the control components
(`MovementControls`, `AMSPanel`, `SpeedControl`, `FanControls`,
`LightToggle`, `TemperaturePanel`) and the client side of the
safety-confirmation handshake, translated from the TypeScript source.
The backend command executor (token issuance and validation) is not part
of the frontend sources, so it is modelled from the specification where a
claim needs it; such definitions carry a `Modelled from the spec:` note.
Machine numbers (temperatures, distances) are modelled as integers.
-/

namespace Bambuddy

/-- Temperature readings carried by a status snapshot
(`Temperatures` interface in TemperaturePanel). Every field is optional,
matching the TypeScript `bed?: number` style declarations. -/
structure Temperatures where
  bed : Option Int := none
  bed_target : Option Int := none
  nozzle : Option Int := none
  nozzle_target : Option Int := none
  nozzle_2 : Option Int := none
  nozzle_2_target : Option Int := none
  chamber : Option Int := none
deriving DecidableEq, Repr

/-- One raw AMS tray as found in the MQTT `raw_data` blob
(the anonymous record type inside `parseAMSData`). -/
structure RawTray where
  id : Option Nat := none
  tray_color : Option String := none
  tray_type : Option String := none
  remain : Option Int := none
deriving DecidableEq, Repr

/-- One raw AMS unit as found in the MQTT `raw_data` blob. -/
structure RawUnit where
  id : Option Nat := none
  tray : Option (List RawTray) := none
deriving DecidableEq, Repr

/-- The `raw_data` field of a status snapshot: possibly carrying an
`ams` array. -/
structure RawData where
  ams : Option (List RawUnit) := none
deriving DecidableEq, Repr

/-- A printer status snapshot as consumed by the control components:
connectivity flag, operational state string, optional temperatures and
optional raw MQTT data. The operational state is kept as a string, as in
the TypeScript source, so that unrecognized values are representable. -/
structure PrinterStatus where
  connected : Bool
  state : String
  temperatures : Option Temperatures := none
  raw_data : Option RawData := none
deriving DecidableEq, Repr

/-- `status?.connected ?? false`: the connectivity test every component
performs on its (possibly absent) status prop. -/
def statusConnected (status : Option PrinterStatus) : Bool :=
  (status.map PrinterStatus.connected).getD false

/-- `status?.state === s`: state comparison through the optional status. -/
def statusStateIs (status : Option PrinterStatus) (s : String) : Bool :=
  match status with
  | some st => st.state == s
  | none => false

/-! ### Enable/disable predicates of the control components

Each predicate is the `disabled` expression of the corresponding button
or slider, translated verbatim from the component source. -/

/-- MovementControls: `isPrinting` drives only the warning banner. -/
def movementIsPrinting (status : Option PrinterStatus) : Bool :=
  statusStateIs status "RUNNING" || statusStateIs status "PAUSE"

/-- MovementControls: every movement/home/disable-motors button is
disabled exactly by `!isConnected || isLoading` (the printer state does
not occur in the `disabled` expression). -/
def movementButtonDisabled (status : Option PrinterStatus) (isLoading : Bool) : Bool :=
  !statusConnected status || isLoading

/-- AMSPanel: `isPrinting` is `status?.state === 'RUNNING'` only. -/
def amsIsPrinting (status : Option PrinterStatus) : Bool :=
  statusStateIs status "RUNNING"

/-- AMSPanel Load button:
`!isConnected || isPrinting || selectedTray === null || isLoading`. -/
def amsLoadDisabled (status : Option PrinterStatus) (selectedTray : Option Nat)
    (isLoading : Bool) : Bool :=
  !statusConnected status || amsIsPrinting status || selectedTray.isNone || isLoading

/-- AMSPanel Unload button: `!isConnected || isPrinting || isLoading`. -/
def amsUnloadDisabled (status : Option PrinterStatus) (isLoading : Bool) : Bool :=
  !statusConnected status || amsIsPrinting status || isLoading

/-- SpeedControl: `isPrinting` is `status?.state === 'RUNNING'`. -/
def speedIsPrinting (status : Option PrinterStatus) : Bool :=
  statusStateIs status "RUNNING"

/-- SpeedControl mode button:
`!isConnected || !isPrinting || speedMutation.isPending`. -/
def speedButtonDisabled (status : Option PrinterStatus) (isPending : Bool) : Bool :=
  !statusConnected status || !speedIsPrinting status || isPending

/-- FanControls: each `FanSlider` receives `disabled={!isConnected}`. -/
def fanSliderDisabled (status : Option PrinterStatus) : Bool :=
  !statusConnected status

/-- LightToggle: `!isConnected || lightMutation.isPending`. -/
def lightToggleDisabled (status : Option PrinterStatus) (isPending : Bool) : Bool :=
  !statusConnected status || isPending

/-- TemperaturePanel preset button: `disabled={!isConnected}`. -/
def tempPresetDisabled (status : Option PrinterStatus) : Bool :=
  !statusConnected status

/-- TemperaturePanel plus/minus button: `!isConnected || mutation.isPending`. -/
def tempAdjustDisabled (status : Option PrinterStatus) (isPending : Bool) : Bool :=
  !statusConnected status || isPending

/-! ### The control categories present in the frontend sources, and the
spec's permission table -/

/-- Control categories of the section 4.1 table whose components are in
the frontend sources (pause/resume/stop live in `PrintControls`, which is
not among them). -/
inductive Category where
  | temperature
  | speedMode
  | fans
  | movementHome
  | amsLoadUnload
  | disableMotorsCat
deriving DecidableEq, Repr

/-- Spec permission value: `enabled`, `enabled-with-warning`, `disabled`. -/
inductive Perm where
  | enabled
  | warn
  | disabled
deriving DecidableEq, Repr

/-- A permission allows user action unless it is `disabled` (the spec
treats `warn` as allowed on these surfaces). -/
def permAllows : Perm → Bool
  | .disabled => false
  | _ => true

/-- The section 4.1 lookup table, written from the spec's words (it is the
refinement target the UI code is compared against, not a translation of
the source): category by state, with unrecognized states fully disabled. -/
def specPermission (cat : Category) (st : String) : Perm :=
  match cat with
  | .temperature =>
      if st == "IDLE" then .enabled
      else if st == "RUNNING" then .warn
      else if st == "PAUSE" then .enabled
      else if st == "FINISH" then .enabled
      else .disabled
  | .speedMode =>
      if st == "RUNNING" then .enabled else .disabled
  | .fans =>
      if st == "IDLE" then .enabled
      else if st == "RUNNING" then .warn
      else if st == "PAUSE" then .enabled
      else if st == "FINISH" then .enabled
      else .disabled
  | .movementHome =>
      if st == "IDLE" then .enabled
      else if st == "RUNNING" then .disabled
      else if st == "PAUSE" then .warn
      else if st == "FINISH" then .enabled
      else .disabled
  | .amsLoadUnload =>
      if st == "IDLE" then .enabled
      else if st == "RUNNING" then .disabled
      else if st == "PAUSE" then .disabled
      else if st == "FINISH" then .enabled
      else .disabled
  | .disableMotorsCat =>
      if st == "IDLE" then .enabled
      else if st == "RUNNING" then .warn
      else if st == "PAUSE" then .warn
      else if st == "FINISH" then .enabled
      else .disabled

/-- A connected snapshot in state `st` with no temperatures or raw data. -/
def someStatus (st : String) : Option PrinterStatus :=
  some { connected := true, state := st }

/-- The UI's enable decision per category for a connected printer in
state `st`, with no mutation pending and (for AMS load) a tray selected:
the negation of each component's `disabled` expression. -/
def codeEnabledAt (cat : Category) (st : String) : Bool :=
  match cat with
  | .temperature => !tempAdjustDisabled (someStatus st) false
  | .speedMode => !speedButtonDisabled (someStatus st) false
  | .fans => !fanSliderDisabled (someStatus st)
  | .movementHome => !movementButtonDisabled (someStatus st) false
  | .amsLoadUnload => !amsLoadDisabled (someStatus st) (some 0) false
  | .disableMotorsCat => !movementButtonDisabled (someStatus st) false

/-! ### AMS parsing (AMSPanel) -/

/-- A parsed AMS tray (`AMSTray` interface). -/
structure AMSTray where
  id : Nat
  color : String
  type : String
  remain : Int
  active : Bool
deriving DecidableEq, Repr

/-- A parsed AMS unit (`AMSUnit` interface). -/
structure AMSUnit where
  id : Nat
  trays : List AMSTray
deriving DecidableEq, Repr

/-- `parseAMSData`: reads `status?.raw_data`, returns `[]` when the
status or its `ams` array is absent, otherwise maps the raw units and
trays, substituting defaults for missing fields (`?? 0`, `?? 'FFFFFF'`,
`?? 'Unknown'`) and `active := false`. -/
def parseAMSData (status : Option PrinterStatus) : List AMSUnit :=
  match status.bind PrinterStatus.raw_data with
  | none => []
  | some rawData =>
    match rawData.ams with
    | none => []
    | some units =>
      units.map fun unit =>
        { id := unit.id.getD 0
          trays := (unit.tray.getD []).map fun tray =>
            { id := tray.id.getD 0
              color := tray.tray_color.getD "FFFFFF"
              type := tray.tray_type.getD "Unknown"
              remain := tray.remain.getD 0
              active := false } }

/-- `const globalTrayId = unit.id * 4 + tray.id` (AMSPanel). -/
def globalTrayId (unitId trayId : Nat) : Nat :=
  unitId * 4 + trayId

/-- The `Selected: Slot` footer of AMSPanel: slot number
`(selectedTray % 4) + 1` and AMS number `Math.floor(selectedTray / 4) + 1`. -/
def selectedSlotDisplay (selectedTray : Nat) : Nat × Nat :=
  (selectedTray % 4 + 1, selectedTray / 4 + 1)

/-! ### Temperature adjustment (TemperaturePanel) -/

/-- Which heater a temperature command addresses (`'bed' | 'nozzle'`). -/
inductive TempType where
  | bed
  | nozzle
deriving DecidableEq, Repr

/-- `adjustTemp`: reads the current target (`?? 0`, picking
`nozzle_2_target` for the second nozzle) and clamps the new target with
`Math.max(0, Math.min(type === 'bed' ? 120 : 300, currentTarget + delta))`;
the returned value is the target submitted to the mutation. -/
def adjustTemp (type : TempType) (temps : Temperatures) (delta : Int)
    (nozzle : Nat) : Int :=
  let currentTarget : Int :=
    match type with
    | .bed => temps.bed_target.getD 0
    | .nozzle =>
      if nozzle = 0 then temps.nozzle_target.getD 0 else temps.nozzle_2_target.getD 0
  max 0 (min (if type = .bed then (120 : Int) else 300) (currentTarget + delta))

/-! ### Client side of the confirmation handshake (MovementControls)

The component keeps a single `confirmModal` state slot and three
mutations (`homeMutation`, `moveMutation`, `disableMotorsMutation`).
Each initial handler (`handleHome`, `handleMove`, `handleDisableMotors`)
submits without a token; when a result satisfies
`isConfirmationRequired`, the `onSuccess` callback fills `confirmModal`
with the action name, the issued token, the warning and an `onConfirm`
closure that resubmits the same command carrying the token.
`handleConfirm` runs the closure and clears the slot; the modal's
`onCancel` clears the slot without running it. -/

/-- An API request issued by MovementControls, with its payload and
optional confirmation token, one constructor per mutation. -/
inductive ClientReq where
  | homeReq (axes : String) (token : Option String)
  | moveReq (axis : String) (distance : Int) (token : Option String)
  | disableReq (token : Option String)
deriving DecidableEq, Repr

/-- The token carried by a request. -/
def reqToken : ClientReq → Option String
  | .homeReq _ t => t
  | .moveReq _ _ t => t
  | .disableReq t => t

/-- Which submitted command a confirmation challenge answers, with the
mutation variables the `onSuccess` callback closes over. -/
inductive ChallengeSrc where
  | homeSrc (axes : String)
  | moveSrc (axis : String) (distance : Int)
  | disableSrc
deriving DecidableEq, Repr

/-- The `action` string stored in `confirmModal` for each mutation. -/
def actionOf : ChallengeSrc → String
  | .homeSrc _ => "home"
  | .moveSrc _ _ => "move"
  | .disableSrc => "disable"

/-- The resubmission each `onConfirm` closure performs: home always
resubmits `axes: 'XYZ'` (hardcoded in the source), move resubmits
`variables.axis`/`variables.distance`, disable-motors resubmits only the
token; all carry `result.token`. -/
def resubmitOf : ChallengeSrc → String → ClientReq
  | .homeSrc _, t => .homeReq "XYZ" (some t)
  | .moveSrc axis distance, t => .moveReq axis distance (some t)
  | .disableSrc, t => .disableReq (some t)

/-- The `confirmModal` record: action name, token, warning and the
pending resubmission (the `onConfirm` closure's effect). -/
structure Modal where
  action : String
  token : String
  warning : String
  resubmit : ClientReq
deriving DecidableEq, Repr

/-- Component state: the single `confirmModal` slot plus the list of API
requests issued so far (the observable outbound traffic). -/
structure ClientState where
  confirmModal : Option Modal
  requests : List ClientReq
deriving DecidableEq, Repr

/-- Initial component state: no modal, nothing sent. -/
def clientInit : ClientState :=
  { confirmModal := none, requests := [] }

/-- The discrete events MovementControls reacts to: the three initial
click handlers, a confirmation-required response from the server for a
previously submitted command, the modal's confirm, and its cancel. -/
inductive CEvent where
  | clickHome
  | clickMove (axis : String) (distance : Int)
  | clickDisable
  | challenge (src : ChallengeSrc) (token : String) (warning : String)
  | confirm
  | cancel
deriving DecidableEq, Repr

/-- The token a server event introduces into the client (none for user
events). -/
def eventToken : CEvent → Option String
  | .challenge _ t _ => some t
  | _ => none

/-- One step of the component's event handling, translated from the
handlers of MovementControls. -/
def clientStep (e : CEvent) (s : ClientState) : ClientState :=
  match e with
  | .clickHome => { s with requests := s.requests ++ [.homeReq "XYZ" none] }
  | .clickMove axis distance =>
      { s with requests := s.requests ++ [.moveReq axis distance none] }
  | .clickDisable => { s with requests := s.requests ++ [.disableReq none] }
  | .challenge src t w =>
      { s with confirmModal := some (Modal.mk (actionOf src) t w (resubmitOf src t)) }
  | .confirm =>
      match s.confirmModal with
      | some m =>
          { confirmModal := none, requests := s.requests ++ [m.resubmit] }
      | none => s
  | .cancel => { s with confirmModal := none }

/-- Run a sequence of events from a state. -/
def clientRun (s : ClientState) (es : List CEvent) : ClientState :=
  es.foldl (fun s e => clientStep e s) s

/-- The token currently held by the `confirmModal` slot, if any. -/
def modalToken (s : ClientState) : Option String :=
  s.confirmModal.map Modal.token

/-! ### Command executor, modelled from the spec

The REST backend that issues and validates confirmation tokens is not
among the frontend sources. `Modelled from the spec:` the spec's command
executor (sections 3, 4.2 and 6): a command whose kind is flagged as
requiring confirmation, called without a token, returns
`{ requires_confirmation: true, token, warning }` and performs no
physical side effect; called with a token, it validates the token
against the most recently issued challenge for that command kind,
performs the action exactly when it matches, and discards the pending
token whether validation succeeds or fails (a stale or consumed token is
answered with `InvalidOrExpiredToken`). Pending challenges are keyed by
command kind. Physical side effects are recorded in an `effects` log. -/

/-- The command kinds the handshake claims speak about; the four
dangerous kinds plus a representative one-step kind. -/
inductive CmdKind where
  | home
  | move
  | disableMotors
  | stop
  | setSpeed
deriving DecidableEq, Repr

/-- The per-kind required-confirmation flag (spec section 3: fixed per
action kind): home, move, disableMotors and stop require confirmation. -/
def requiresConfirmation : CmdKind → Bool
  | .home => true
  | .move => true
  | .disableMotors => true
  | .stop => true
  | .setSpeed => false

/-- Executor state: the pending challenge token per command kind, the
log of performed physical side effects (kind and payload), and a fresh
token counter. Payloads are abstract. -/
structure ExecState (α : Type) where
  pending : CmdKind → Option Nat
  effects : List (CmdKind × α)
  nextToken : Nat

/-- Executor response: a normal result, a confirmation challenge, or the
`InvalidOrExpiredToken` failure. -/
inductive ExecResult where
  | ok
  | challenge (token : Nat) (warning : String)
  | invalidOrExpiredToken
deriving DecidableEq, Repr

/-- Modelled from the spec: one executor call
`{ payload, confirm_token? }` for command kind `k`. -/
def execCommand {α : Type} (s : ExecState α) (k : CmdKind) (payload : α)
    (token : Option Nat) : ExecResult × ExecState α :=
  if requiresConfirmation k then
    match token with
    | none =>
        (.challenge s.nextToken "Confirmation required",
         { s with
             pending := fun k2 => if k2 = k then some s.nextToken else s.pending k2,
             nextToken := s.nextToken + 1 })
    | some t =>
        let cleared : ExecState α :=
          { s with pending := fun k2 => if k2 = k then none else s.pending k2 }
        if s.pending k = some t then
          (.ok, { cleared with effects := s.effects ++ [(k, payload)] })
        else
          (.invalidOrExpiredToken, cleared)
  else
    (.ok, { s with effects := s.effects ++ [(k, payload)] })

/-- Whether an executor response is a confirmation challenge (the
`requires_confirmation` discriminator of `isConfirmationRequired`). -/
def isChallenge : ExecResult → Bool
  | .challenge _ _ => true
  | _ => false

/-! ## Claim formalizations -/

/-- Formalization of claim C1: for every control category (of the
components present in the sources) and every state among IDLE, RUNNING,
PAUSE, FINISH, with connected = true, the UI enable decision equals the
section 4.1 table entry (warn counting as allowed). -/
def claimTableMatches : Prop :=
  ∀ (cat : Category) (st : String),
    st ∈ (["IDLE", "RUNNING", "PAUSE", "FINISH"] : List String) →
    codeEnabledAt cat st = permAllows (specPermission cat st)

/-- Formalization of claim C7: for every state outside
IDLE/RUNNING/PAUSE/FINISH, every category is disabled even when
connected. -/
def claimFailClosed : Prop :=
  ∀ (cat : Category) (st : String),
    st ∉ (["IDLE", "RUNNING", "PAUSE", "FINISH"] : List String) →
    codeEnabledAt cat st = false

/-- The client still holds token `t` somewhere it can be resubmitted
from (the only such place is the `confirmModal` slot). -/
def retainsToken (s : ClientState) (t : String) : Prop :=
  modalToken s = some t

/-- Formalization of claim C4: after a challenge for one command is
pending, a challenge for a different command does not replace it — the
first command's token is still retained. -/
def claimIndependentChallenges : Prop :=
  ∀ (s : ClientState) (src1 src2 : ChallengeSrc) (t1 w1 t2 w2 : String),
    actionOf src1 ≠ actionOf src2 →
    retainsToken (clientStep (.challenge src2 t2 w2)
      (clientStep (.challenge src1 t1 w1) s)) t1

/-! ## C1: the section 4.1 permission table vs the UI code -/

/-- C1 counterexample: the claim fails. At state RUNNING with
connected = true, the movement/home buttons of MovementControls are
enabled (their `disabled` expression ignores the printer state), while
the section 4.1 table tabulates movement/home as disabled during
RUNNING. -/
theorem movement_running_breaks_table : ¬ claimTableMatches := fun h =>
  absurd (h .movementHome "RUNNING" (by simp)) (by decide)

/-- C1 amended: with connected = true and no mutation pending, the UI
enable decisions are: movement/home and disable-motors enabled in every
state; AMS load/unload enabled exactly when the state is not RUNNING;
speed-mode buttons enabled exactly when the state is RUNNING; fan and
temperature controls enabled in every state. -/
theorem codeEnabled_actual (st : String) :
    codeEnabledAt .movementHome st = true ∧
    codeEnabledAt .disableMotorsCat st = true ∧
    codeEnabledAt .amsLoadUnload st = !(st == "RUNNING") ∧
    codeEnabledAt .speedMode st = (st == "RUNNING") ∧
    codeEnabledAt .fans st = true ∧
    codeEnabledAt .temperature st = true := by
  simp [codeEnabledAt, movementButtonDisabled, amsLoadDisabled, speedButtonDisabled,
    fanSliderDisabled, tempAdjustDisabled, amsIsPrinting, speedIsPrinting,
    statusStateIs, statusConnected, someStatus]

/-! ## C6: disconnected (or absent) status disables every control -/

/-- C6: if the latest snapshot reports connected = false, or there is no
snapshot at all, every command-triggering control of the components in
the sources is disabled. -/
theorem disconnected_all_disabled (status : Option PrinterStatus)
    (h : statusConnected status = false) (isLoading isPending : Bool)
    (sel : Option Nat) :
    movementButtonDisabled status isLoading = true ∧
    amsLoadDisabled status sel isLoading = true ∧
    amsUnloadDisabled status isLoading = true ∧
    speedButtonDisabled status isPending = true ∧
    fanSliderDisabled status = true ∧
    lightToggleDisabled status isPending = true ∧
    tempPresetDisabled status = true ∧
    tempAdjustDisabled status isPending = true := by
  simp [movementButtonDisabled, amsLoadDisabled, amsUnloadDisabled, speedButtonDisabled,
    fanSliderDisabled, lightToggleDisabled, tempPresetDisabled, tempAdjustDisabled, h]

/-- C6 witness: the absent snapshot, with nothing pending. -/
theorem disconnected_all_disabled_witness :
    statusConnected (none : Option PrinterStatus) = false ∧
    (movementButtonDisabled none false = true ∧
     amsLoadDisabled none none false = true ∧
     amsUnloadDisabled none false = true ∧
     speedButtonDisabled none false = true ∧
     fanSliderDisabled none = true ∧
     lightToggleDisabled none false = true ∧
     tempPresetDisabled none = true ∧
     tempAdjustDisabled none false = true) :=
  ⟨rfl, disconnected_all_disabled none rfl false false none⟩

/-! ## C7: unrecognized states do not fail closed -/

/-- C7 counterexample: the claim fails. In state FAILED with
connected = true the fan sliders are enabled (their `disabled`
expression is `!isConnected` alone), so an unrecognized state does not
collapse every category to disabled. -/
theorem fans_failed_state_enabled : ¬ claimFailClosed := fun h =>
  absurd (h .fans "FAILED" (by decide)) (by decide)

/-- C7 amended: for a state outside IDLE/RUNNING/PAUSE/FINISH with
connected = true, only the speed-mode buttons fail closed (they require
state RUNNING exactly); AMS load/unload, movement/home, disable-motors,
fan and temperature controls all remain enabled — the code gates on
connectivity and on specific state strings, not on a recognized-state
allowlist. -/
theorem unknown_state_actual (st : String)
    (h : st ∉ (["IDLE", "RUNNING", "PAUSE", "FINISH"] : List String)) :
    codeEnabledAt .speedMode st = false ∧
    codeEnabledAt .amsLoadUnload st = true ∧
    codeEnabledAt .movementHome st = true ∧
    codeEnabledAt .disableMotorsCat st = true ∧
    codeEnabledAt .fans st = true ∧
    codeEnabledAt .temperature st = true := by
  have hne : st ≠ "RUNNING" := by
    intro e
    exact h (by simp [e])
  have hb : (st == "RUNNING") = false := by
    simp [hne]
  simp [codeEnabledAt, movementButtonDisabled, amsLoadDisabled, speedButtonDisabled,
    fanSliderDisabled, tempAdjustDisabled, amsIsPrinting, speedIsPrinting,
    statusStateIs, statusConnected, someStatus, hb]

/-- C7 amended witness: the FAILED state. -/
theorem unknown_state_actual_witness :
    "FAILED" ∉ (["IDLE", "RUNNING", "PAUSE", "FINISH"] : List String) ∧
    (codeEnabledAt .speedMode "FAILED" = false ∧
     codeEnabledAt .amsLoadUnload "FAILED" = true ∧
     codeEnabledAt .movementHome "FAILED" = true ∧
     codeEnabledAt .disableMotorsCat "FAILED" = true ∧
     codeEnabledAt .fans "FAILED" = true ∧
     codeEnabledAt .temperature "FAILED" = true) :=
  ⟨by decide, unknown_state_actual "FAILED" (by decide)⟩

/-! ## C9: global tray id round-trip -/

/-- C9: for any unit id and tray id at most 3, the global tray id
`unit.id * 4 + tray.id` round-trips: modulo 4 recovers the tray, integer
division by 4 recovers the unit, and the `Selected: Slot` footer shows
slot `t + 1` of AMS `u + 1` — exactly the tray the user clicked. -/
theorem globalTrayId_roundtrip (u t : Nat) (h : t ≤ 3) :
    globalTrayId u t % 4 = t ∧ globalTrayId u t / 4 = u ∧
    selectedSlotDisplay (globalTrayId u t) = (t + 1, u + 1) := by
  unfold globalTrayId selectedSlotDisplay
  refine ⟨?_, ?_, ?_⟩
  · omega
  · omega
  · simp only [Prod.mk.injEq]
    omega

/-- C9 witness: unit 2, tray 3 (the last slot of the third AMS). -/
theorem globalTrayId_roundtrip_witness :
    (3 : Nat) ≤ 3 ∧
    (globalTrayId 2 3 % 4 = 3 ∧ globalTrayId 2 3 / 4 = 2 ∧
     selectedSlotDisplay (globalTrayId 2 3) = (4, 3)) :=
  ⟨by decide, globalTrayId_roundtrip 2 3 (by decide)⟩

/-! ## C10: temperature adjustment is clamped -/

/-- C10: for every current target and every delta, the target submitted
by the plus/minus adjustment controls is clamped: bed requests lie in
[0, 120] and nozzle requests (either nozzle) lie in [0, 300]. -/
theorem adjustTemp_clamped (temps : Temperatures) (delta : Int) (nozzle : Nat) :
    (0 ≤ adjustTemp .bed temps delta nozzle ∧
     adjustTemp .bed temps delta nozzle ≤ 120) ∧
    (0 ≤ adjustTemp .nozzle temps delta nozzle ∧
     adjustTemp .nozzle temps delta nozzle ≤ 300) := by
  simp only [adjustTemp]
  constructor
  · constructor
    · exact le_max_left 0 _
    · exact max_le (by norm_num) (min_le_left _ _)
  · constructor
    · exact le_max_left 0 _
    · refine max_le (by norm_num) ?_
      simp only [reduceCtorEq, if_false]
      exact min_le_left _ _

/-! ## Handshake helper lemmas -/

/-- The resubmission built by an `onConfirm` closure always carries the
issued token. -/
theorem reqToken_resubmitOf (src : ChallengeSrc) (t : String) :
    reqToken (resubmitOf src t) = some t := by
  cases src <;> rfl

/-- Invariant of the client event loop: if the modal does not hold token
`t` (and is consistent: its resubmission carries its own token), no
issued request carries `t`, and no incoming event introduces `t`, then
this stays true along any event sequence. -/
theorem clientRun_token_free (t : String) :
    ∀ (es : List CEvent) (s : ClientState),
      (∀ m, s.confirmModal = some m → m.token ≠ t ∧ reqToken m.resubmit = some m.token) →
      (∀ r ∈ s.requests, reqToken r ≠ some t) →
      (∀ e ∈ es, eventToken e ≠ some t) →
      (∀ m, (clientRun s es).confirmModal = some m →
         m.token ≠ t ∧ reqToken m.resubmit = some m.token) ∧
      (∀ r ∈ (clientRun s es).requests, reqToken r ≠ some t) := by
  intro es
  induction es with
  | nil =>
    intro s hm hr _h
    exact ⟨hm, hr⟩
  | cons e es ih =>
    intro s hm hr hes
    have hes1 : eventToken e ≠ some t := hes e (List.mem_cons_self _ _)
    have hes2 : ∀ e2 ∈ es, eventToken e2 ≠ some t :=
      fun e2 h2 => hes e2 (List.mem_cons_of_mem _ h2)
    have hrun : clientRun s (e :: es) = clientRun (clientStep e s) es := rfl
    rw [hrun]
    refine ih (clientStep e s) ?_ ?_ hes2
    · intro m hm2
      cases e with
      | clickHome => exact hm m hm2
      | clickMove axis distance => exact hm m hm2
      | clickDisable => exact hm m hm2
      | cancel => simp [clientStep] at hm2
      | challenge src tok w =>
        have htok : tok ≠ t := fun he => hes1 (by simp [eventToken, he])
        simp only [clientStep, Option.some.injEq] at hm2
        subst hm2
        exact ⟨htok, reqToken_resubmitOf src tok⟩
      | confirm =>
        cases hcm : s.confirmModal with
        | none =>
          rw [show clientStep .confirm s = s from by simp [clientStep, hcm]] at hm2
          exact hm m hm2
        | some m0 => simp [clientStep, hcm] at hm2
    · intro r hr2
      cases e with
      | clickHome =>
        simp only [clientStep, List.mem_append, List.mem_singleton] at hr2
        rcases hr2 with h2 | h2
        · exact hr r h2
        · subst h2
          simp [reqToken]
      | clickMove axis distance =>
        simp only [clientStep, List.mem_append, List.mem_singleton] at hr2
        rcases hr2 with h2 | h2
        · exact hr r h2
        · subst h2
          simp [reqToken]
      | clickDisable =>
        simp only [clientStep, List.mem_append, List.mem_singleton] at hr2
        rcases hr2 with h2 | h2
        · exact hr r h2
        · subst h2
          simp [reqToken]
      | challenge src tok w => exact hr r hr2
      | cancel => exact hr r hr2
      | confirm =>
        cases hcm : s.confirmModal with
        | none =>
          rw [show clientStep .confirm s = s from by simp [clientStep, hcm]] at hr2
          exact hr r hr2
        | some m0 =>
          have hm0 := hm m0 hcm
          simp only [clientStep, hcm, List.mem_append, List.mem_singleton] at hr2
          rcases hr2 with h2 | h2
          · exact hr r h2
          · subst h2
            rw [hm0.2]
            simp [hm0.1]

/-! ## C2: the first, tokenless call only challenges -/

/-- C2: for every confirmation-requiring command kind, the tokenless
call records no side effect and returns a challenge; a side effect can
only ever come from a call bearing the currently issued token; and the
client's initial handlers (`handleHome`, `handleMove`,
`handleDisableMotors`) submit without a token. -/
theorem dangerous_tokenless_no_side_effect {α : Type} (s : ExecState α)
    (k : CmdKind) (payload : α) (h : requiresConfirmation k = true) :
    isChallenge (execCommand s k payload none).1 = true ∧
    (execCommand s k payload none).2.effects = s.effects ∧
    (∀ tok : Option Nat,
       (execCommand s k payload tok).2.effects ≠ s.effects →
       ∃ t, tok = some t ∧ s.pending k = some t) ∧
    (∀ (s2 : ClientState) (axis : String) (distance : Int),
       (clientStep .clickHome s2).requests = s2.requests ++ [ClientReq.homeReq "XYZ" none] ∧
       (clientStep (.clickMove axis distance) s2).requests
         = s2.requests ++ [ClientReq.moveReq axis distance none] ∧
       (clientStep .clickDisable s2).requests = s2.requests ++ [ClientReq.disableReq none]) := by
  refine ⟨?_, ?_, ?_, ?_⟩
  · simp [execCommand, h, isChallenge]
  · simp [execCommand, h]
  · intro tok hne
    match tok with
    | none =>
      exact absurd (by simp [execCommand, h]) hne
    | some t =>
      refine ⟨t, rfl, ?_⟩
      by_cases hp : s.pending k = some t
      · exact hp
      · exact absurd (by simp [execCommand, h, hp]) hne
  · intro s2 axis distance
    exact ⟨rfl, rfl, rfl⟩

/-- C2 witness: the stop command on a fresh executor. -/
theorem dangerous_tokenless_no_side_effect_witness :
    requiresConfirmation CmdKind.stop = true ∧
    (isChallenge (execCommand (⟨fun _ => none, [], 0⟩ : ExecState String)
        CmdKind.stop "p" none).1 = true ∧
     (execCommand (⟨fun _ => none, [], 0⟩ : ExecState String)
        CmdKind.stop "p" none).2.effects
       = (⟨fun _ => none, [], 0⟩ : ExecState String).effects ∧
     (∀ tok : Option Nat,
        (execCommand (⟨fun _ => none, [], 0⟩ : ExecState String)
           CmdKind.stop "p" tok).2.effects
          ≠ (⟨fun _ => none, [], 0⟩ : ExecState String).effects →
        ∃ t, tok = some t ∧
          (⟨fun _ => none, [], 0⟩ : ExecState String).pending CmdKind.stop = some t) ∧
     (∀ (s2 : ClientState) (axis : String) (distance : Int),
        (clientStep .clickHome s2).requests = s2.requests ++ [ClientReq.homeReq "XYZ" none] ∧
        (clientStep (.clickMove axis distance) s2).requests
          = s2.requests ++ [ClientReq.moveReq axis distance none] ∧
        (clientStep .clickDisable s2).requests = s2.requests ++ [ClientReq.disableReq none])) :=
  ⟨by decide,
   dangerous_tokenless_no_side_effect (⟨fun _ => none, [], 0⟩ : ExecState String)
     CmdKind.stop "p" (by decide)⟩

/-! ## C3: confirming resubmits once, replay is rejected -/

/-- C3: with the issued token pending for kind `k`, the confirm call
succeeds, appends exactly one side effect carrying the original payload,
and discards the token; replaying the same token afterwards fails with
InvalidOrExpiredToken and records nothing. On the client, accepting a
challenge resubmits the challenged command's own payload with the issued
token exactly once (`handleConfirm` clears the modal, so a second
confirm is a no-op). -/
theorem confirm_consumes_token_once {α : Type} (s : ExecState α) (k : CmdKind)
    (p : α) (t : Nat) (hk : requiresConfirmation k = true)
    (hp : s.pending k = some t) :
    (execCommand s k p (some t)).1 = ExecResult.ok ∧
    (execCommand s k p (some t)).2.effects = s.effects ++ [(k, p)] ∧
    (execCommand s k p (some t)).2.pending k = none ∧
    (execCommand (execCommand s k p (some t)).2 k p (some t)).1
      = ExecResult.invalidOrExpiredToken ∧
    (execCommand (execCommand s k p (some t)).2 k p (some t)).2.effects
      = (execCommand s k p (some t)).2.effects ∧
    (∀ (s2 : ClientState) (src : ChallengeSrc) (tok w : String),
       (clientStep .confirm (clientStep (.challenge src tok w) s2)).requests
         = s2.requests ++ [resubmitOf src tok] ∧
       (clientStep .confirm (clientStep (.challenge src tok w) s2)).confirmModal = none ∧
       clientStep .confirm (clientStep .confirm (clientStep (.challenge src tok w) s2))
         = clientStep .confirm (clientStep (.challenge src tok w) s2)) := by
  refine ⟨?_, ?_, ?_, ?_, ?_, ?_⟩
  · simp [execCommand, hk, hp]
  · simp [execCommand, hk, hp]
  · simp [execCommand, hk, hp]
  · simp [execCommand, hk, hp]
  · simp [execCommand, hk, hp]
  · intro s2 src tok w
    exact ⟨rfl, rfl, rfl⟩

/-- C3 witness: the stop command with pending token 7. -/
theorem confirm_consumes_token_once_witness :
    requiresConfirmation CmdKind.stop = true ∧
    (⟨fun k => if k = CmdKind.stop then some 7 else none, [], 8⟩
       : ExecState String).pending CmdKind.stop = some 7 ∧
    ((execCommand (⟨fun k => if k = CmdKind.stop then some 7 else none, [], 8⟩
        : ExecState String) CmdKind.stop "p" (some 7)).1 = ExecResult.ok ∧
     (execCommand (⟨fun k => if k = CmdKind.stop then some 7 else none, [], 8⟩
        : ExecState String) CmdKind.stop "p" (some 7)).2.effects
       = [] ++ [(CmdKind.stop, "p")] ∧
     (execCommand (⟨fun k => if k = CmdKind.stop then some 7 else none, [], 8⟩
        : ExecState String) CmdKind.stop "p" (some 7)).2.pending CmdKind.stop = none ∧
     (execCommand (execCommand (⟨fun k => if k = CmdKind.stop then some 7 else none, [], 8⟩
        : ExecState String) CmdKind.stop "p" (some 7)).2 CmdKind.stop "p" (some 7)).1
       = ExecResult.invalidOrExpiredToken ∧
     (execCommand (execCommand (⟨fun k => if k = CmdKind.stop then some 7 else none, [], 8⟩
        : ExecState String) CmdKind.stop "p" (some 7)).2 CmdKind.stop "p" (some 7)).2.effects
       = (execCommand (⟨fun k => if k = CmdKind.stop then some 7 else none, [], 8⟩
        : ExecState String) CmdKind.stop "p" (some 7)).2.effects ∧
     (∀ (s2 : ClientState) (src : ChallengeSrc) (tok w : String),
        (clientStep .confirm (clientStep (.challenge src tok w) s2)).requests
          = s2.requests ++ [resubmitOf src tok] ∧
        (clientStep .confirm (clientStep (.challenge src tok w) s2)).confirmModal = none ∧
        clientStep .confirm (clientStep .confirm (clientStep (.challenge src tok w) s2))
          = clientStep .confirm (clientStep (.challenge src tok w) s2))) :=
  ⟨by decide, by decide,
   confirm_consumes_token_once
     (⟨fun k => if k = CmdKind.stop then some 7 else none, [], 8⟩ : ExecState String)
     CmdKind.stop "p" 7 (by decide) (by decide)⟩

/-! ## C4: a second challenge replaces the first (single modal slot) -/

/-- C4 counterexample: the claim fails. Starting from the initial state,
a pending home challenge with token T1 followed by a disable-motors
challenge with token T2 leaves the single `confirmModal` slot holding
T2; token T1 is no longer retained anywhere in the component state, so
the first command's pending challenge has been replaced. -/
theorem second_challenge_replaces_first : ¬ claimIndependentChallenges := fun h =>
  absurd (h clientInit (.homeSrc "XYZ") .disableSrc "T1" "w1" "T2" "w2" (by decide))
    (by unfold retainsToken; decide)

/-- C4 amended: MovementControls keeps a single `confirmModal` slot
shared by home, move and disable-motors. A second dangerous command's
challenge overwrites the slot with its own token; the first challenge's
token (when distinct) is no longer retained and can never be
resubmitted, and confirming executes only the most recent command. -/
theorem single_confirmModal_slot (s : ClientState) (src1 src2 : ChallengeSrc)
    (t1 w1 t2 w2 : String) (hne : t1 ≠ t2) :
    modalToken (clientStep (.challenge src2 t2 w2)
      (clientStep (.challenge src1 t1 w1) s)) = some t2 ∧
    ¬ retainsToken (clientStep (.challenge src2 t2 w2)
      (clientStep (.challenge src1 t1 w1) s)) t1 ∧
    (clientStep .confirm (clientStep (.challenge src2 t2 w2)
      (clientStep (.challenge src1 t1 w1) s))).requests
      = s.requests ++ [resubmitOf src2 t2] := by
  refine ⟨rfl, ?_, rfl⟩
  intro hret
  have h2 : t2 = t1 := by
    simpa [retainsToken, modalToken, clientStep] using hret
  exact hne h2.symm

/-- C4 amended witness: home challenged with T1, then disable-motors
challenged with T2. -/
theorem single_confirmModal_slot_witness :
    ("T1" : String) ≠ "T2" ∧
    (modalToken (clientStep (.challenge .disableSrc "T2" "w2")
        (clientStep (.challenge (.homeSrc "XYZ") "T1" "w1") clientInit)) = some "T2" ∧
     ¬ retainsToken (clientStep (.challenge .disableSrc "T2" "w2")
        (clientStep (.challenge (.homeSrc "XYZ") "T1" "w1") clientInit)) "T1" ∧
     (clientStep .confirm (clientStep (.challenge .disableSrc "T2" "w2")
        (clientStep (.challenge (.homeSrc "XYZ") "T1" "w1") clientInit))).requests
       = clientInit.requests ++ [resubmitOf .disableSrc "T2"]) :=
  ⟨by decide,
   single_confirmModal_slot clientInit (.homeSrc "XYZ") .disableSrc "T1" "w1" "T2" "w2"
     (by decide)⟩

/-! ## C5: cancelling discards the token forever -/

/-- C5: when the user cancels a pending confirmation holding token `t`
(the modal's `onCancel` clears `confirmModal` without issuing anything),
then along any continuation in which the server does not issue `t`
again, no request ever carries `t` — the token is never replayed; and on
the modelled executor a dangerous command that only ever received its
tokenless call has recorded no side effect. -/
theorem cancel_never_replays (pre post : List CEvent) (t : String)
    (_hpending : modalToken (clientRun clientInit pre) = some t)
    (hfresh : ∀ r ∈ (clientRun clientInit pre).requests, reqToken r ≠ some t)
    (hpost : ∀ e ∈ post, eventToken e ≠ some t) :
    (clientStep .cancel (clientRun clientInit pre)).confirmModal = none ∧
    (clientStep .cancel (clientRun clientInit pre)).requests
      = (clientRun clientInit pre).requests ∧
    (∀ r ∈ (clientRun clientInit (pre ++ CEvent.cancel :: post)).requests,
       reqToken r ≠ some t) ∧
    (∀ (s : ExecState String) (k : CmdKind) (p : String),
       requiresConfirmation k = true →
       (execCommand s k p none).2.effects = s.effects) := by
  refine ⟨rfl, rfl, ?_, ?_⟩
  · have hsplit : clientRun clientInit (pre ++ CEvent.cancel :: post)
        = clientRun (clientStep CEvent.cancel (clientRun clientInit pre)) post := by
      simp [clientRun, List.foldl_append]
    rw [hsplit]
    refine (clientRun_token_free t post
      (clientStep CEvent.cancel (clientRun clientInit pre)) ?_ ?_ hpost).2
    · intro m hm2
      simp [clientStep] at hm2
    · exact hfresh
  · intro s k p hk
    simp [execCommand, hk]

/-- C5 witness: a disable-motors challenge with token T1 is cancelled;
the user then homes and confirms (an empty modal), and T1 never appears
in any request. -/
theorem cancel_never_replays_witness :
    modalToken (clientRun clientInit
      [CEvent.challenge ChallengeSrc.disableSrc "T1" "w"]) = some "T1" ∧
    (∀ r ∈ (clientRun clientInit
        [CEvent.challenge ChallengeSrc.disableSrc "T1" "w"]).requests,
       reqToken r ≠ some "T1") ∧
    (∀ e ∈ [CEvent.clickHome, CEvent.confirm], eventToken e ≠ some "T1") ∧
    ((clientStep .cancel (clientRun clientInit
        [CEvent.challenge ChallengeSrc.disableSrc "T1" "w"])).confirmModal = none ∧
     (clientStep .cancel (clientRun clientInit
        [CEvent.challenge ChallengeSrc.disableSrc "T1" "w"])).requests
       = (clientRun clientInit
          [CEvent.challenge ChallengeSrc.disableSrc "T1" "w"]).requests ∧
     (∀ r ∈ (clientRun clientInit
         ([CEvent.challenge ChallengeSrc.disableSrc "T1" "w"]
           ++ CEvent.cancel :: [CEvent.clickHome, CEvent.confirm])).requests,
        reqToken r ≠ some "T1") ∧
     (∀ (s : ExecState String) (k : CmdKind) (p : String),
        requiresConfirmation k = true →
        (execCommand s k p none).2.effects = s.effects)) :=
  ⟨by decide, by decide, by decide,
   cancel_never_replays [CEvent.challenge ChallengeSrc.disableSrc "T1" "w"]
     [CEvent.clickHome, CEvent.confirm] "T1" (by decide) (by decide) (by decide)⟩

/-! ## C8: parseAMSData is total and applies defaults -/

/-- The parse of a status that does carry an `ams` array, in closed
form (definitional). -/
theorem parseAMSData_some (c : Bool) (st : String) (tp : Option Temperatures)
    (us : List RawUnit) :
    parseAMSData (some (PrinterStatus.mk c st tp (some (RawData.mk (some us)))))
      = us.map (fun unit => AMSUnit.mk (unit.id.getD 0)
          ((unit.tray.getD []).map (fun tray => AMSTray.mk (tray.id.getD 0)
            (tray.tray_color.getD "FFFFFF") (tray.tray_type.getD "Unknown")
            (tray.remain.getD 0) false))) := rfl

/-- C8: parseAMSData returns the empty list for an absent status, an
absent `raw_data` and an absent `ams` array; every parsed tray has
`active = false`; parsed units correspond index-by-index to the raw
units with missing ids replaced by 0; and parsed trays correspond
index-by-index to the raw trays with missing id, color, type and remain
replaced by 0, FFFFFF, Unknown and 0. -/
theorem parseAMSData_total_defaults :
    parseAMSData none = [] ∧
    (∀ (c : Bool) (st : String) (tp : Option Temperatures),
      parseAMSData (some (PrinterStatus.mk c st tp none)) = []) ∧
    (∀ (c : Bool) (st : String) (tp : Option Temperatures),
      parseAMSData (some (PrinterStatus.mk c st tp (some (RawData.mk none)))) = []) ∧
    (∀ (status : Option PrinterStatus), ∀ u ∈ parseAMSData status, ∀ tr ∈ u.trays,
      tr.active = false) ∧
    (∀ (c : Bool) (st : String) (tp : Option Temperatures) (us : List RawUnit) (i : Nat),
      ((parseAMSData (some (PrinterStatus.mk c st tp
          (some (RawData.mk (some us))))))[i]?).map AMSUnit.id
        = (us[i]?).map (fun u => u.id.getD 0)) ∧
    (∀ (c : Bool) (st : String) (tp : Option Temperatures) (us : List RawUnit) (i j : Nat),
      (((parseAMSData (some (PrinterStatus.mk c st tp
          (some (RawData.mk (some us))))))[i]?).bind (fun u => u.trays[j]?))
        = ((us[i]?).bind (fun u => (u.tray.getD [])[j]?)).map
            (fun tr => AMSTray.mk (tr.id.getD 0) (tr.tray_color.getD "FFFFFF")
              (tr.tray_type.getD "Unknown") (tr.remain.getD 0) false)) := by
  refine ⟨rfl, fun c st tp => rfl, fun c st tp => rfl, ?_, ?_, ?_⟩
  · intro status u hu tr htr
    match status with
    | none => simp [parseAMSData] at hu
    | some ⟨c, st, tp, none⟩ => simp [parseAMSData] at hu
    | some ⟨c, st, tp, some ⟨none⟩⟩ => simp [parseAMSData] at hu
    | some ⟨c, st, tp, some ⟨some us⟩⟩ =>
      rw [parseAMSData_some] at hu
      rw [List.mem_map] at hu
      obtain ⟨ru, _hru, rfl⟩ := hu
      replace htr : tr ∈ (ru.tray.getD []).map
          (fun tray => AMSTray.mk (tray.id.getD 0) (tray.tray_color.getD "FFFFFF")
            (tray.tray_type.getD "Unknown") (tray.remain.getD 0) false) := htr
      rw [List.mem_map] at htr
      obtain ⟨rt, _hrt, rfl⟩ := htr
      rfl
  · intro c st tp us i
    rcases h : us[i]? with _ | ru
    · simp [parseAMSData_some, List.getElem?_map, h]
    · simp [parseAMSData_some, List.getElem?_map, h]
  · intro c st tp us i j
    rcases h : us[i]? with _ | ru
    · simp [parseAMSData_some, List.getElem?_map, h]
    · simp [parseAMSData_some, List.getElem?_map, h]

/-- C8 witness: a raw unit with all fields missing parses to the default
unit, whose tray has `active = false`. -/
theorem parseAMSData_total_defaults_witness :
    (AMSUnit.mk 0 [AMSTray.mk 0 "FFFFFF" "Unknown" 0 false]
       ∈ parseAMSData (some (PrinterStatus.mk true "IDLE" none
           (some (RawData.mk (some [RawUnit.mk none
             (some [RawTray.mk none none none none])])))))) ∧
    (AMSTray.mk 0 "FFFFFF" "Unknown" 0 false
       ∈ (AMSUnit.mk 0 [AMSTray.mk 0 "FFFFFF" "Unknown" 0 false]).trays) ∧
    (AMSTray.mk 0 "FFFFFF" "Unknown" 0 false).active = false :=
  ⟨by decide, by decide,
   parseAMSData_total_defaults.2.2.2.1
     (some (PrinterStatus.mk true "IDLE" none
       (some (RawData.mk (some [RawUnit.mk none
         (some [RawTray.mk none none none none])])))))
     (AMSUnit.mk 0 [AMSTray.mk 0 "FFFFFF" "Unknown" 0 false]) (by decide)
     (AMSTray.mk 0 "FFFFFF" "Unknown" 0 false) (by decide)⟩

end Bambuddy
